import Mathlib

/-!
# Verification of the Zen sandboxed code-execution engine

Shallow embedding of the repository's sandbox subsystem:

* `src/tools/utils/sandbox_security.py` — the static AST safety validator
  (forbidden modules / builtins / attribute calls, allow-glob import policy);
* `src/tools/code_interpreter.py` — workspace and attachment handling,
  the Docker invocation, output capping, timeout handling and artifact
  collection of `LocalCodeInterpreterTool._run`.

Python machinery is modelled as follows: source text is represented by its
parse result (an `Except` value, since only the parse outcome is inspected);
the AST subset the validator examines is an inductive type; `ast.walk`'s
breadth-first traversal is reproduced with an explicit queue (fuelled by the
exact node count so it computes by reduction); `fnmatch.fnmatch` is
implemented over character lists (POSIX case behaviour, where
`os.path.normcase` is the identity); external effects of `_run` (Docker
probe, image pull, container outcome) are an explicit environment record,
and the function returns both its outcome and the record of effects
(commands issued, files written) it performed.
-/

set_option autoImplicit false

namespace ZenSandbox

/-! ## fnmatch.fnmatch (stdlib glob matching, as called by the validator)

`_is_import_allowed` calls `fnmatch.fnmatch(module_name, pat)`.  Glob
semantics: `*` matches any (possibly empty) sequence, `?` one character,
`[seq]` a set/range of characters (`[!seq]` negated, an unterminated `[` is
a literal).  The recursion consumes at least one character of pattern or
subject at every step, so fuel `pattern.length + subject.length + 1` is
always sufficient; we seed exactly that. -/

/-- Scan the characters after a closing-bracket search: content before the
first unescaped right bracket, and the remainder of the pattern. -/
def takeUntilRBracket : List Char → Option (List Char × List Char)
  | [] => none
  | ']' :: rest => some ([], rest)
  | c :: rest =>
    match takeUntilRBracket rest with
    | none => none
    | some (content, r) => some (c :: content, r)

/-- Parse a bracket expression body (the characters following a literal
left bracket): negation flag, member items, rest of pattern.  A right
bracket as the first member character is literal. -/
def scanBracket (cs : List Char) : Option (Bool × List Char × List Char) :=
  let negAndBody : Bool × List Char :=
    match cs with
    | '!' :: r => (true, r)
    | _ => (false, cs)
  match negAndBody.2 with
  | ']' :: rest =>
    match takeUntilRBracket rest with
    | none => none
    | some (content, r) => some (negAndBody.1, ']' :: content, r)
  | body =>
    match takeUntilRBracket body with
    | none => none
    | some (content, r) => some (negAndBody.1, content, r)

/-- Does character `c` belong to the bracket items (single characters and
`a-b` ranges; a leading or trailing dash is literal)? -/
def bracketMatches : List Char → Char → Bool
  | a :: '-' :: b :: rest, c =>
    (decide (a ≤ c) && decide (c ≤ b)) || bracketMatches rest c
  | a :: rest, c => (a = c : Bool) || bracketMatches rest c
  | [], _ => false

/-- Fuelled glob matcher core.  The fuel is always seeded large enough
(every step consumes pattern or subject), so the `0` branch is dead. -/
def fnmatchAux : Nat → List Char → List Char → Bool
  | 0, _, _ => false
  | _ + 1, [], s => s.isEmpty
  | fuel + 1, '*' :: ps, s =>
    fnmatchAux fuel ps s ||
      (match s with
       | [] => false
       | _ :: s1 => fnmatchAux fuel ('*' :: ps) s1)
  | fuel + 1, '?' :: ps, s =>
    (match s with
     | [] => false
     | _ :: s1 => fnmatchAux fuel ps s1)
  | fuel + 1, '[' :: ps, s =>
    (match scanBracket ps with
     | none =>
       -- unterminated bracket: the left bracket is a literal character
       (match s with
        | [] => false
        | c :: s1 => (c = '[' : Bool) && fnmatchAux fuel ps s1)
     | some (neg, items, rest) =>
       (match s with
        | [] => false
        | c :: s1 => (xor (bracketMatches items c) neg) && fnmatchAux fuel rest s1))
  | fuel + 1, p :: ps, s =>
    (match s with
     | [] => false
     | c :: s1 => (p = c : Bool) && fnmatchAux fuel ps s1)

/-- Function `fnmatch.fnmatch(name, pat)` on POSIX (`normcase` is the identity). -/
def fnmatch (name pat : String) : Bool :=
  fnmatchAux (pat.length + name.length + 1) pat.data name.data

/-! ## sandbox_security.py: policy constants and the validator -/

/-- Constant `DEFAULT_FORBIDDEN_MODULES` (a Python set; only membership is used, so a
list of the same elements). `FORBIDDEN_MODULES = DEFAULT_FORBIDDEN_MODULES`
in the source, with no other assignment. -/
def FORBIDDEN_MODULES : List String :=
  ["os", "sys", "subprocess", "socket", "shutil", "pathlib", "ctypes",
   "multiprocessing", "threading", "selectors", "resource", "psutil"]

/-- Constant `DEFAULT_FORBIDDEN_BUILTINS` (= `FORBIDDEN_BUILTINS`). -/
def FORBIDDEN_BUILTINS : List String :=
  ["exec", "eval", "compile", "__import__", "open", "input"]

/-- Constant `DEFAULT_FORBIDDEN_ATTRS` (= `FORBIDDEN_ATTRS`). -/
def FORBIDDEN_ATTRS : List String :=
  ["system", "popen", "Popen", "run", "call", "check_call", "check_output",
   "remove", "unlink", "rmdir", "walk", "fork", "spawn", "execv", "execve",
   "kill", "terminate", "connect", "send", "recv"]

/-- Expression `module_name.split(".")[0]`: the characters before the first dot (for a
dotless or empty name, the whole name). -/
def rootModule (name : String) : String :=
  ⟨name.data.takeWhile (fun c => c ≠ '.')⟩

/-- Function `_is_import_allowed(module_name)`, parametrised by
`ALLOWED_IMPORT_PATTERNS` (which the source reads once from the
`SANDBOX_ALLOWED_IMPORTS` environment variable).  For an empty
`module_name` the source sets `root = ""`, which `rootModule` also
returns, so the guard needs no special case. -/
def isImportAllowed (patterns : List String) (moduleName : String) : Bool :=
  if patterns.isEmpty then true
  else
    let root := rootModule moduleName
    patterns.any (fun pat => fnmatch moduleName pat || fnmatch root pat)

/-- The violations `validate_code_ast` raises (`CodeSafetyError` carries a
message string in Python; we keep the distinct message shapes as distinct
constructors, each carrying the interpolated payload). -/
inductive CodeSafetyError where
  /-- "AST parsing error: {e}" -/
  | astParseError (msg : String)
  /-- "Forbidden import detected: {alias.name}" -/
  | forbiddenImport (name : String)
  /-- "Forbidden import from detected: {mod}" -/
  | forbiddenImportFrom (mod : String)
  /-- "Import not allowed by policy: {name}" (raised for both import forms) -/
  | importNotAllowed (name : String)
  /-- "Forbidden builtin usage: {node.id}" -/
  | forbiddenBuiltin (id : String)
  /-- "Forbidden attribute call detected: .{attr}()" -/
  | forbiddenAttrCall (attr : String)
  /-- "Forbidden function call detected: {func.id}()" -/
  | forbiddenFunctionCall (id : String)
deriving DecidableEq, Repr

/-- The expression subset of the Python AST that the validator inspects
(other expression kinds are never examined by any check and behave like
`constant`). -/
inductive PyExpr where
  | name (id : String)
  | attribute (value : PyExpr) (attr : String)
  | call (func : PyExpr) (args : List PyExpr)
  | constant

/-- The statement subset relevant to the validator.  `imprt names` is
`import a, b.c` with `names` the alias names; `importFrom module names` is
`from M import ...` with `module = none` for a relative `from . import x`. -/
inductive PyStmt where
  | imprt (names : List String)
  | importFrom (module : Option String) (names : List String)
  | assign (targets : List PyExpr) (value : PyExpr)
  | exprStmt (e : PyExpr)

/-- A node as yielded by `ast.walk`: the module, a statement or an
expression.  (Leaf helper nodes such as `ast.alias` and contexts are
yielded by the real walk but match none of the `isinstance` checks, so they
are omitted.) -/
inductive PyNode where
  | module (body : List PyStmt)
  | stmt (s : PyStmt)
  | expr (e : PyExpr)

mutual
/-- Number of modelled nodes in an expression subtree. -/
def exprSize : PyExpr → Nat
  | .name _ => 1
  | .attribute v _ => 1 + exprSize v
  | .call f args => 1 + exprSize f + exprListSize args
  | .constant => 1

/-- Total node count of a list of expressions. -/
def exprListSize : List PyExpr → Nat
  | [] => 0
  | e :: es => exprSize e + exprListSize es
end

/-- Number of modelled nodes in a statement subtree. -/
def stmtSize : PyStmt → Nat
  | .imprt _ => 1
  | .importFrom _ _ => 1
  | .assign targets value => 1 + exprListSize targets + exprSize value
  | .exprStmt e => 1 + exprSize e

/-- Total node count of a statement list. -/
def stmtListSize : List PyStmt → Nat
  | [] => 0
  | s :: ss => stmtSize s + stmtListSize ss

/-- Total node count from a walk root. -/
def nodeSize : PyNode → Nat
  | .module body => 1 + stmtListSize body
  | .stmt s => stmtSize s
  | .expr e => exprSize e

/-- Function `ast.iter_child_nodes`, restricted to the modelled node kinds, in field
order (`Assign`: targets then value; `Call`: func then args). -/
def exprChildren : PyExpr → List PyNode
  | .name _ => []
  | .attribute v _ => [.expr v]
  | .call f args => .expr f :: args.map .expr
  | .constant => []

/-- Child nodes of a walk node. -/
def children : PyNode → List PyNode
  | .module body => body.map .stmt
  | .stmt (.imprt _) => []
  | .stmt (.importFrom _ _) => []
  | .stmt (.assign targets value) => targets.map .expr ++ [.expr value]
  | .stmt (.exprStmt e) => [.expr e]
  | .expr e => exprChildren e

/-- Function `ast.walk`: breadth-first traversal with an explicit queue.  Each
iteration pops one node and pushes its children; since every node enters
the queue exactly once, fuel equal to the total node count is exactly
sufficient, and the `0` branch is never reached from `walk`. -/
def walkAux : Nat → List PyNode → List PyNode
  | 0, _ => []
  | _ + 1, [] => []
  | fuel + 1, n :: rest => n :: walkAux fuel (rest ++ children n)

/-- Call `ast.walk(tree)` for a parsed module. -/
def walk (body : List PyStmt) : List PyNode :=
  walkAux (nodeSize (.module body)) [.module body]

/-- The per-alias loop body of the `ast.Import` branch of
`validate_code_ast` (lines 43–49): for each alias in order, the
forbidden-module check, then the allow-policy check. -/
def checkAliases (patterns : List String) : List String → Except CodeSafetyError Unit
  | [] => .ok ()
  | name :: rest =>
    if rootModule name ∈ FORBIDDEN_MODULES then
      .error (.forbiddenImport name)
    else if ¬ isImportAllowed patterns name then
      .error (.importNotAllowed name)
    else
      checkAliases patterns rest

/-- The checks `validate_code_ast` applies to a single walked node
(lines 42–70).  The `isinstance` branches are disjoint across our node
kinds, so at most one branch applies to a node. -/
def checkNode (patterns : List String) : PyNode → Except CodeSafetyError Unit
  | .stmt (.imprt names) => checkAliases patterns names
  | .stmt (.importFrom module _) =>
    -- mod = (node.module or "") ; root = mod.split(".")[0] if mod else ""
    let mod := module.getD ""
    let root := if mod = "" then "" else rootModule mod
    if root ∈ FORBIDDEN_MODULES then
      .error (.forbiddenImportFrom mod)
    else if mod ≠ "" ∧ ¬ isImportAllowed patterns mod then
      .error (.importNotAllowed mod)
    else
      .ok ()
  | .expr (.name id) =>
    if id ∈ FORBIDDEN_BUILTINS then .error (.forbiddenBuiltin id) else .ok ()
  | .expr (.call func _) =>
    (match func with
     | .attribute _ attr =>
       if attr ∈ FORBIDDEN_ATTRS then .error (.forbiddenAttrCall attr) else .ok ()
     | .name id =>
       if id ∈ FORBIDDEN_BUILTINS then .error (.forbiddenFunctionCall id) else .ok ()
     | _ => .ok ())
  | _ => .ok ()

/-- Check every walked node in order; the first violation raises (the
Python `raise` aborts the loop). -/
def checkNodes (patterns : List String) : List PyNode → Except CodeSafetyError Unit
  | [] => .ok ()
  | n :: rest =>
    match checkNode patterns n with
    | .error e => .error e
    | .ok _ => checkNodes patterns rest

/-- A submitted source string, represented by its parse outcome:
`ast.parse` either yields a module body or raises, with the exception text
interpolated into the `CodeSafetyError` message. -/
structure PySource where
  parseResult : Except String (List PyStmt)

/-- Function `validate_code_ast(code)` (lines 36–70), parametrised by the
allow-glob list. -/
def validate_code_ast (patterns : List String) (src : PySource) :
    Except CodeSafetyError Unit :=
  match src.parseResult with
  | .error msg => .error (.astParseError msg)
  | .ok body => checkNodes patterns (walk body)

/-! ## code_interpreter.py: paths, artifacts, output capping, `_run` -/

/-- Function `os.path.basename(p)` on POSIX: the characters after the last slash
(the whole string when there is none; empty for a trailing slash). -/
def basenameAux : List Char → List Char → List Char
  | [], acc => acc
  | c :: rest, acc =>
    if c = '/' then basenameAux rest [] else basenameAux rest (acc ++ [c])

/-- Function `os.path.basename`. -/
def basename (p : String) : String :=
  ⟨basenameAux p.data []⟩

/-- Function `os.path.join(a, b)` on POSIX for two components: an absolute `b`
replaces `a`; otherwise a separator is inserted unless `a` is empty or
already ends with one. -/
def osPathJoin (a b : String) : String :=
  if b.data.head? = some '/' then b
  else if a = "" ∨ a.data.getLast? = some '/' then a ++ b
  else a ++ "/" ++ b

/-- Line 189 of `_run`:
`os.path.join(workspace, os.path.basename(fname))` — the path an
attachment is written to. -/
def attachmentTargetPath (workspace fname : String) : String :=
  osPathJoin workspace (basename fname)

/-- Function `copy_artifacts_to_output` (lines 37–61), with the workspace walk
flattened to the list of workspace-relative file paths and the
timestamp-named destination directory a parameter.  A file whose name (the
basename within its directory) is `script.py` is skipped; every other file
is copied to `os.path.join(output_subdir, rel_path)` in walk order. -/
def copy_artifacts_to_output (outputSubdir : String) (wsFiles : List String) :
    List String :=
  wsFiles.filterMap (fun rel =>
    if basename rel = "script.py" then none
    else some (osPathJoin outputSubdir rel))

set_option linter.unusedVariables false in
/-- Function `collect_artifacts(workspace, keep_script=True)` (lines 63–79):
the enumeration appends every walked file's relative path (no exclusion;
the `keep_script` parameter is accepted but never read, as in the source),
then copies, then produces a zip path iff the file list is non-empty. -/
def collect_artifacts (baseDir outputSubdir workspace : String)
    (wsFiles : List String) (keep_script : Bool) :
    List String × Option String × List String :=
  let files := wsFiles
  let copied := copy_artifacts_to_output outputSubdir wsFiles
  let zipPath : Option String :=
    if files.isEmpty then none
    else some (osPathJoin baseDir ("artifacts_" ++ basename workspace ++ ".zip"))
  (files, zipPath, copied)

/-- Fixed prefix of the truncation marker string
`"\n...[truncated output, total length {n} chars]..."`. -/
def truncatedMarkerPre : List Char :=
  "\n...[truncated output, total length ".data

/-- Fixed suffix of the truncation marker string. -/
def truncatedMarkerPost : List Char :=
  " chars]...".data

/-- The interpolated truncation marker for an original output of `n`
characters (line 232). -/
def truncatedMarker (n : Nat) : List Char :=
  truncatedMarkerPre ++ (toString n).data ++ truncatedMarkerPost

/-- Lines 231–235 of `_run`: cap the display text at `maxChars`
characters (`MAX_STDOUT_CHARS`), appending the truncation marker when the
raw output exceeds the cap.  Text is modelled as a character list
(Python `len`/slicing count characters). -/
def capOutput (maxChars : Nat) (raw : List Char) : List Char :=
  if raw.length > maxChars then raw.take maxChars ++ truncatedMarker raw.length
  else raw

/-- Constructor parameters of `LocalCodeInterpreterTool` used by `_run`
(`use_custom_image` only changes `docker_image` before `_run`). -/
structure InterpreterConfig where
  docker_image : String
  timeout : Nat
  memory : String
  cpus : String
deriving DecidableEq, Repr

/-- Value of `raw_output` for the timeout branch (line 222). -/
def timeoutMessage : List Char :=
  "[SECURE-RUN] Timeout: execution exceeded the limit and was interrupted.".data

/-- Prefix of `raw_output` for the `FileNotFoundError` branch (line 225). -/
def dockerNotFoundHead : List Char :=
  "[SECURE-RUN] Error: docker not found or not accessible: ".data

/-- Prefix of `raw_output` for the generic exception branch (line 228). -/
def execErrorHead : List Char :=
  "[SECURE-RUN] Execution error: ".data

/-- How the `subprocess.run(docker_cmd, ..., timeout=self.timeout)` call
ends: normal exit (with captured combined output and elapsed wall time),
`TimeoutExpired`, `FileNotFoundError`, or another exception. -/
inductive ContainerOutcome where
  | completed (stdout : List Char) (elapsed : Nat)
  | timedOut
  | dockerNotFound (msg : List Char) (elapsed : Nat)
  | otherError (msg : List Char) (elapsed : Nat)
deriving DecidableEq, Repr

/-- The external world one `_run` call observes: whether the docker binary
is on PATH and the daemon answers the version probe
(`check_docker_available`), whether the image is already present locally
and whether a pull would succeed (`pull_docker_image`), the workspace path
`make_run_workspace` would create, and how the container invocation ends. -/
structure RunEnv where
  dockerOnPath : Bool
  dockerResponds : Bool
  imagePresentLocally : Bool
  pullSucceeds : Bool
  workspace : String
  outcome : ContainerOutcome
deriving DecidableEq, Repr

/-- The externally visible effects of one `_run` call: every command line
handed to `subprocess.run`, whether the run workspace was created, where
the script was written, where attachments were written, and the container
command line if one was launched. -/
structure RunEffects where
  commands : List (List String)
  workspaceCreated : Bool
  scriptWrittenAt : Option String
  attachmentPaths : List String
  containerInvocation : Option (List String)
deriving DecidableEq, Repr

/-- The terminal states of `_run`: the early-return branches, or a
completed supervision carrying `raw_output`, `execution_time` and
`stdout_display` (the rest of the function is report formatting and
artifact collection, modelled by `collect_artifacts`). -/
inductive RunOutcome where
  | rejectedByValidation (e : CodeSafetyError)
  | dockerUnavailable
  | imagePullFailed (image : String)
  | executed (rawOutput : List Char) (executionTime : Nat) (stdoutDisplay : List Char)
deriving DecidableEq, Repr

/-- The `docker_cmd` list literal of `_run` (lines 194–206). -/
def dockerCmd (memory cpus workspace image : String) : List String :=
  ["docker", "run", "--rm",
   "--network", "none",
   "--memory", memory,
   "--cpus", cpus,
   "--pids-limit", "128",
   "--security-opt", "no-new-privileges",
   "--read-only",
   "-v", workspace ++ ":/workspace:rw",
   "--workdir", "/workspace",
   image,
   "python", "-u", "script.py"]

/-- Method `LocalCodeInterpreterTool._run(code, extra_files)` (lines 167–237),
up to and including the output-capping step.  `maxStdout` is the
module-level `MAX_STDOUT_CHARS`; `patterns` the module-level allow-glob
list; attachment byte contents are irrelevant to control flow and carried
opaquely. -/
def runModel (cfg : InterpreterConfig) (maxStdout : Nat) (patterns : List String)
    (src : PySource) (extraFiles : List (String × List Nat)) (env : RunEnv) :
    RunOutcome × RunEffects :=
  match validate_code_ast patterns src with
  | .error e => (.rejectedByValidation e, ⟨[], false, none, [], none⟩)
  | .ok _ =>
    -- check_docker_available: shutil.which, then a `docker version` probe
    let versionProbe : List (List String) :=
      if env.dockerOnPath then [["docker", "version"]] else []
    if ¬ (env.dockerOnPath && env.dockerResponds) then
      (.dockerUnavailable, ⟨versionProbe, false, none, [], none⟩)
    else
      -- pull_docker_image: `docker images -q`, then `docker pull` if absent
      let imagesQuery := ["docker", "images", "-q", cfg.docker_image]
      let pullCmds : List (List String) :=
        if env.imagePresentLocally then [imagesQuery]
        else [imagesQuery, ["docker", "pull", cfg.docker_image]]
      if ¬ (env.imagePresentLocally || env.pullSucceeds) then
        (.imagePullFailed cfg.docker_image,
         ⟨versionProbe ++ pullCmds, false, none, [], none⟩)
      else
        let workspace := env.workspace
        let scriptPath := osPathJoin workspace "script.py"
        let attachPaths := extraFiles.map (fun nf => attachmentTargetPath workspace nf.1)
        let cmd := dockerCmd cfg.memory cfg.cpus workspace cfg.docker_image
        let rawAndTime : List Char × Nat :=
          match env.outcome with
          | .completed out elapsed => (out, elapsed)
          | .timedOut => (timeoutMessage, cfg.timeout)
          | .dockerNotFound m elapsed => (dockerNotFoundHead ++ m, elapsed)
          | .otherError m elapsed => (execErrorHead ++ m, elapsed)
        let display := capOutput maxStdout rawAndTime.1
        (.executed rawAndTime.1 rawAndTime.2 display,
         ⟨versionProbe ++ pullCmds ++ [cmd], true, some scriptPath, attachPaths, some cmd⟩)

/-- Is this command line an explicit container-termination request to the
engine (`docker kill`, `docker stop` or `docker rm`)? -/
def isContainerStopCommand (cmd : List String) : Bool :=
  cmd.head? = some "docker" &&
    ((cmd.drop 1).head? = some "kill" ||
     (cmd.drop 1).head? = some "stop" ||
     (cmd.drop 1).head? = some "rm")

/-- Container-lifecycle model: a container that exits on its own (or is
never launched) does not outlive the call, but a container still running
when the supervision times out keeps running inside the engine daemon
unless some explicit stop/kill/remove command is issued — terminating the
attached client process (which is all `subprocess.run`'s timeout handling
does) does not stop the daemon-side container, and the auto-remove flag
only acts when the container exits. -/
def containerTerminatedWithinCall (env : RunEnv) (eff : RunEffects) : Bool :=
  match env.outcome with
  | .timedOut => eff.commands.any isContainerStopCommand
  | _ => true

/-! ## Concrete submitted programs used in the claims -/

/-- A single plain import statement: `import <name>`. -/
def importProgram (name : String) : PySource :=
  ⟨.ok [.imprt [name]]⟩

/-- A single from-import statement: `from <mod> import x`. -/
def importFromProgram (mod : String) : PySource :=
  ⟨.ok [.importFrom (some mod) ["x"]]⟩

/-- A harmless one-statement program (a bare constant expression). -/
def trivialProgram : PySource :=
  ⟨.ok [.exprStmt .constant]⟩

/-- Program `x = eval` — a forbidden builtin referenced but never called. -/
def assignEvalProgram : PySource :=
  ⟨.ok [.assign [.name "x"] (.name "eval")]⟩

/-- Program `f = obj.remove` then `f()` — a forbidden attribute aliased before the
call, so the attribute access is never the callee of a call expression. -/
def aliasedAttrProgram : PySource :=
  ⟨.ok [.assign [.name "f"] (.attribute (.name "obj") "remove"),
        .exprStmt (.call (.name "f") [])]⟩

/-! ## Validator lemmas -/

lemma checkNodes_rejects_of_mem {patterns : List String} {ns : List PyNode}
    {n : PyNode} {e : CodeSafetyError}
    (hn : n ∈ ns) (he : checkNode patterns n = .error e) :
    ∃ e2, checkNodes patterns ns = .error e2 := by
  induction ns with
  | nil => exact absurd hn (List.not_mem_nil n)
  | cons a rest ih =>
    rcases List.mem_cons.mp hn with rfl | hmem
    · exact ⟨e, by simp [checkNodes, he]⟩
    · cases ha : checkNode patterns a with
      | error e2 => exact ⟨e2, by simp [checkNodes, ha]⟩
      | ok u =>
        obtain ⟨e2, h2⟩ := ih hmem
        exact ⟨e2, by simp [checkNodes, ha, h2]⟩

lemma checkAliases_rejects_of_mem (patterns : List String) {names : List String} {name : String}
    (hn : name ∈ names) (hf : rootModule name ∈ FORBIDDEN_MODULES) :
    ∃ e, checkAliases patterns names = .error e := by
  induction names with
  | nil => exact absurd hn (List.not_mem_nil name)
  | cons a rest ih =>
    rcases List.mem_cons.mp hn with rfl | hmem
    · exact ⟨.forbiddenImport name, by simp [checkAliases, hf]⟩
    · by_cases hfa : rootModule a ∈ FORBIDDEN_MODULES
      · exact ⟨.forbiddenImport a, by simp [checkAliases, hfa]⟩
      · by_cases hal : isImportAllowed patterns a
        · obtain ⟨e, he⟩ := ih hmem
          exact ⟨e, by simp [checkAliases, hfa, hal, he]⟩
        · exact ⟨.importNotAllowed a, by simp [checkAliases, hfa, hal]⟩

lemma isImportAllowed_eq_false {patterns : List String} {name : String}
    (hne : patterns ≠ [])
    (h : ∀ pat ∈ patterns,
      fnmatch name pat = false ∧ fnmatch (rootModule name) pat = false) :
    isImportAllowed patterns name = false := by
  unfold isImportAllowed
  rw [if_neg (fun hc => hne (List.isEmpty_iff.mp hc))]
  rw [List.any_eq_false]
  intro pat hp
  simp [(h pat hp).1, (h pat hp).2]

lemma isImportAllowed_eq_true {patterns : List String} {name : String}
    (h : ∃ pat ∈ patterns,
      fnmatch name pat = true ∨ fnmatch (rootModule name) pat = true) :
    isImportAllowed patterns name = true := by
  unfold isImportAllowed
  by_cases he : patterns.isEmpty
  · rw [if_pos he]
  · rw [if_neg he, List.any_eq_true]
    obtain ⟨pat, hp, hor⟩ := h
    exact ⟨pat, hp, by rcases hor with h1 | h1 <;> simp [h1]⟩

/-- The per-alias decision of the `ast.Import` branch, on one alias. -/
lemma checkAliases_singleton (patterns : List String) (name : String) :
    checkAliases patterns [name] =
      if rootModule name ∈ FORBIDDEN_MODULES then .error (.forbiddenImport name)
      else if ¬ isImportAllowed patterns name then .error (.importNotAllowed name)
      else .ok () := rfl

/-- Validating a one-statement `import <name>` program reduces to the
per-alias decision on that name. -/
lemma validate_importProgram (patterns : List String) (name : String) :
    validate_code_ast patterns (importProgram name) =
      if rootModule name ∈ FORBIDDEN_MODULES then .error (.forbiddenImport name)
      else if ¬ isImportAllowed patterns name then .error (.importNotAllowed name)
      else .ok () := by
  have heq : validate_code_ast patterns (importProgram name) =
      match checkAliases patterns [name] with
      | .error e => .error e
      | .ok _ => .ok () := rfl
  rw [heq, checkAliases_singleton]
  by_cases h1 : rootModule name ∈ FORBIDDEN_MODULES
  · simp [h1]
  · by_cases h2 : isImportAllowed patterns name <;> simp [h1, h2]

/-- The `ast.ImportFrom` branch of the validator, written as its if-chain. -/
lemma checkNode_importFrom (patterns : List String) (mod : String)
    (names : List String) :
    checkNode patterns (.stmt (.importFrom (some mod) names)) =
      if (if mod = "" then "" else rootModule mod) ∈ FORBIDDEN_MODULES then
        .error (.forbiddenImportFrom mod)
      else if mod ≠ "" ∧ ¬ isImportAllowed patterns mod then
        .error (.importNotAllowed mod)
      else .ok () := rfl

/-- Validating a one-statement `from <mod> import x` program reduces to the
`ImportFrom` branch decision. -/
lemma validate_importFromProgram (patterns : List String) (mod : String) :
    validate_code_ast patterns (importFromProgram mod) =
      match checkNode patterns (.stmt (.importFrom (some mod) ["x"])) with
      | .error e => .error e
      | .ok _ => .ok () := rfl

/-- C1: For a plain or from-import, a forbidden root module is rejected
with the forbidden-import violation; a non-denied import with a non-empty
allow-glob list is rejected with the distinct not-allowed-by-policy
violation unless the full dotted name or its root matches a glob; with an
empty glob list every non-denied import is accepted; any source containing
an import alias with a forbidden root is rejected; and with globs
numpy* and pandas, `import numpy.linalg` is accepted while
`import requests` is rejected as not allowed by policy. -/
theorem claim_C1_import_allow_deny (patterns : List String) (name : String) :
    (rootModule name ∈ FORBIDDEN_MODULES →
      validate_code_ast patterns (importProgram name) =
        .error (.forbiddenImport name)) ∧
    (rootModule name ∉ FORBIDDEN_MODULES → patterns ≠ [] →
      (∀ pat ∈ patterns,
        fnmatch name pat = false ∧ fnmatch (rootModule name) pat = false) →
      validate_code_ast patterns (importProgram name) =
        .error (.importNotAllowed name)) ∧
    (rootModule name ∉ FORBIDDEN_MODULES → patterns = [] →
      validate_code_ast patterns (importProgram name) = .ok ()) ∧
    (rootModule name ∉ FORBIDDEN_MODULES →
      (∃ pat ∈ patterns,
        fnmatch name pat = true ∨ fnmatch (rootModule name) pat = true) →
      validate_code_ast patterns (importProgram name) = .ok ()) ∧
    (rootModule name ∈ FORBIDDEN_MODULES →
      validate_code_ast patterns (importFromProgram name) =
        .error (.forbiddenImportFrom name)) ∧
    (name ≠ "" → rootModule name ∉ FORBIDDEN_MODULES → patterns ≠ [] →
      (∀ pat ∈ patterns,
        fnmatch name pat = false ∧ fnmatch (rootModule name) pat = false) →
      validate_code_ast patterns (importFromProgram name) =
        .error (.importNotAllowed name)) ∧
    (∀ body names, PyNode.stmt (.imprt names) ∈ walk body → name ∈ names →
      rootModule name ∈ FORBIDDEN_MODULES →
      ∃ e, validate_code_ast patterns ⟨.ok body⟩ = .error e) ∧
    validate_code_ast ["numpy*", "pandas"] (importProgram "numpy.linalg") =
      .ok () ∧
    validate_code_ast ["numpy*", "pandas"] (importProgram "requests") =
      .error (.importNotAllowed "requests") := by
  refine ⟨?_, ?_, ?_, ?_, ?_, ?_, ?_, rfl, rfl⟩
  · intro h
    rw [validate_importProgram, if_pos h]
  · intro h hne hmat
    rw [validate_importProgram, if_neg h,
      if_pos (by simp [isImportAllowed_eq_false hne hmat])]
  · intro h hp
    subst hp
    rw [validate_importProgram, if_neg h, if_neg (by simp [isImportAllowed])]
  · intro h hex
    rw [validate_importProgram, if_neg h,
      if_neg (by simp [isImportAllowed_eq_true hex])]
  · intro h
    have hm : ¬ (name = "") := by rintro rfl; revert h; decide
    rw [validate_importFromProgram, checkNode_importFrom, if_neg hm, if_pos h]
  · intro hm h hne hmat
    rw [validate_importFromProgram, checkNode_importFrom, if_neg hm, if_neg h,
      if_pos ⟨hm, by simp [isImportAllowed_eq_false hne hmat]⟩]
  · intro body names hmem hname hf
    obtain ⟨e, he⟩ := checkAliases_rejects_of_mem patterns hname hf
    exact checkNodes_rejects_of_mem hmem he

/-- Witness for C1: `import os` is hard-denied; `import requests` under the
numpy* glob list is rejected as not allowed by policy; `import json` with
no glob list and `import numpy.linalg` under the glob list are accepted;
`from os import x` is hard-denied; `from requests import x` is rejected by
policy; and a program containing `import os` is rejected. -/
theorem claim_C1_import_allow_deny_witness :
    validate_code_ast [] (importProgram "os") =
      .error (.forbiddenImport "os") ∧
    validate_code_ast ["numpy*"] (importProgram "requests") =
      .error (.importNotAllowed "requests") ∧
    validate_code_ast [] (importProgram "json") = .ok () ∧
    validate_code_ast ["numpy*"] (importProgram "numpy.linalg") = .ok () ∧
    validate_code_ast [] (importFromProgram "os") =
      .error (.forbiddenImportFrom "os") ∧
    validate_code_ast ["numpy*"] (importFromProgram "requests") =
      .error (.importNotAllowed "requests") ∧
    (∃ e, validate_code_ast [] ⟨.ok [.imprt ["os"]]⟩ = .error e) := by
  have hw : walk [PyStmt.imprt ["os"]] =
      [.module [.imprt ["os"]], .stmt (.imprt ["os"])] := rfl
  refine ⟨(claim_C1_import_allow_deny [] "os").1 (by decide),
    (claim_C1_import_allow_deny ["numpy*"] "requests").2.1 (by decide)
      (by decide) (by decide),
    (claim_C1_import_allow_deny [] "json").2.2.1 (by decide) rfl,
    (claim_C1_import_allow_deny ["numpy*"] "numpy.linalg").2.2.2.1 (by decide)
      ⟨"numpy*", by decide, Or.inl (by decide)⟩,
    (claim_C1_import_allow_deny [] "os").2.2.2.2.1 (by decide),
    (claim_C1_import_allow_deny ["numpy*"] "requests").2.2.2.2.2.1 (by decide)
      (by decide) (by decide) (by decide),
    (claim_C1_import_allow_deny [] "os").2.2.2.2.2.2.1 [.imprt ["os"]] ["os"]
      (by rw [hw]; simp) (by decide) (by decide)⟩

/-- C2: A bare name reference whose id is in the forbidden-builtins set
causes rejection wherever it occurs in the walked tree, the check on that
node reports the forbidden-builtin violation, and the program `x = eval`
(a reference that is never called) is rejected with the forbidden-builtin
violation for eval. -/
theorem claim_C2_builtin_reference (patterns : List String) :
    (∀ body id, PyNode.expr (.name id) ∈ walk body →
      id ∈ FORBIDDEN_BUILTINS →
      ∃ e, validate_code_ast patterns ⟨.ok body⟩ = .error e) ∧
    (∀ id, id ∈ FORBIDDEN_BUILTINS →
      checkNode patterns (.expr (.name id)) = .error (.forbiddenBuiltin id)) ∧
    validate_code_ast patterns assignEvalProgram =
      .error (.forbiddenBuiltin "eval") := by
  refine ⟨?_, ?_, rfl⟩
  · intro body id hmem hid
    have he : checkNode patterns (.expr (.name id)) =
        .error (.forbiddenBuiltin id) := by simp [checkNode, hid]
    exact checkNodes_rejects_of_mem hmem he
  · intro id hid
    simp [checkNode, hid]

/-- Witness for C2: the concrete program `x = eval` is rejected, and the
node check on the bare name eval reports the forbidden-builtin violation. -/
theorem claim_C2_builtin_reference_witness :
    (∃ e, validate_code_ast []
      ⟨.ok [.assign [.name "x"] (.name "eval")]⟩ = .error e) ∧
    checkNode [] (.expr (.name "eval")) = .error (.forbiddenBuiltin "eval") := by
  have hw : walk [PyStmt.assign [.name "x"] (.name "eval")] =
      [.module [.assign [.name "x"] (.name "eval")],
       .stmt (.assign [.name "x"] (.name "eval")),
       .expr (.name "x"), .expr (.name "eval")] := rfl
  exact ⟨(claim_C2_builtin_reference []).1 [.assign [.name "x"] (.name "eval")]
      "eval" (by rw [hw]; simp) (by decide),
    (claim_C2_builtin_reference []).2.1 "eval" (by decide)⟩

/-- C9: A relative import (`from . import x`, whose module attribute is
absent) passes the `ImportFrom` checks unconditionally: neither the
forbidden-module test nor the allow-glob test applies, for every allow-glob
configuration (the forbidden sets are the module-level constants, which are
not configurable in the source). -/
theorem claim_C9_relative_import (patterns : List String) (names : List String) :
    checkNode patterns (.stmt (.importFrom none names)) = .ok () ∧
    validate_code_ast patterns ⟨.ok [.importFrom none names]⟩ = .ok () :=
  ⟨rfl, rfl⟩

/-- C10: The forbidden-attribute check fires only when the attribute
access is the callee of a call: a bare attribute-access node always passes,
a call whose callee is an attribute access with a forbidden name is
rejected, and the aliasing program `f = obj.remove; f()` is accepted under
every allow-glob configuration. -/
theorem claim_C10_attribute_only_as_callee (patterns : List String) :
    (∀ v attr, checkNode patterns (.expr (.attribute v attr)) = .ok ()) ∧
    (∀ v attr args, attr ∈ FORBIDDEN_ATTRS →
      checkNode patterns (.expr (.call (.attribute v attr) args)) =
        .error (.forbiddenAttrCall attr)) ∧
    validate_code_ast patterns aliasedAttrProgram = .ok () := by
  refine ⟨fun v attr => rfl, ?_, rfl⟩
  intro v attr args h
  simp [checkNode, h]

/-- Witness for C10: the check does reject `obj.remove()` as a direct call,
while the aliasing program is accepted. -/
theorem claim_C10_attribute_only_as_callee_witness :
    checkNode [] (.expr (.call (.attribute (.name "obj") "remove") [])) =
      .error (.forbiddenAttrCall "remove") ∧
    validate_code_ast [] aliasedAttrProgram = .ok () :=
  ⟨(claim_C10_attribute_only_as_callee []).2.1 (.name "obj") "remove" []
      (by decide),
    (claim_C10_attribute_only_as_callee []).2.2⟩

/-! ## Path lemmas -/

lemma slash_not_mem_basenameAux :
    ∀ (l acc : List Char), ('/' : Char) ∉ acc →
      ('/' : Char) ∉ basenameAux l acc := by
  intro l
  induction l with
  | nil => intro acc h; simpa [basenameAux] using h
  | cons c rest ih =>
    intro acc h
    by_cases hc : c = '/'
    · subst hc
      have hstep : basenameAux ('/' :: rest) acc = basenameAux rest [] := by
        simp [basenameAux]
      rw [hstep]
      exact ih [] (by simp)
    · have hstep : basenameAux (c :: rest) acc = basenameAux rest (acc ++ [c]) := by
        simp [basenameAux, hc]
      rw [hstep]
      refine ih (acc ++ [c]) ?_
      intro hmem
      rcases List.mem_append.mp hmem with h1 | h1
      · exact h h1
      · exact hc (List.mem_singleton.mp h1).symm

/-- The component `os.path.basename` returns never contains a separator. -/
lemma basename_no_slash (p : String) : ('/' : Char) ∉ (basename p).data :=
  slash_not_mem_basenameAux p.data [] (by simp)

/-- Joining a separator-free component onto a non-empty directory path that
does not end in a separator inserts exactly one separator. -/
lemma osPathJoin_eq {a b : String} (hb : ('/' : Char) ∉ b.data)
    (ha1 : a ≠ "") (ha2 : a.data.getLast? ≠ some '/') :
    osPathJoin a b = a ++ "/" ++ b := by
  have h1 : ¬ (b.data.head? = some '/') := by
    intro h
    cases hb' : b.data with
    | nil => rw [hb'] at h; cases h
    | cons c rest =>
      rw [hb'] at h
      injection h with h
      exact hb (by rw [hb', h]; exact List.mem_cons_self _ _)
  unfold osPathJoin
  rw [if_neg h1, if_neg (fun hor => Or.elim hor ha1 ha2)]

/-! ## Interpreter claims -/

/-- C4: A source that fails to parse is rejected with the parse-error
violation, and the run performs no effect at all: no command is issued, no
workspace is created, no script or attachment is written, and no container
is launched. -/
theorem claim_C4_parse_error_fail_fast (cfg : InterpreterConfig)
    (maxStdout : Nat) (patterns : List String)
    (extraFiles : List (String × List Nat)) (env : RunEnv) (msg : String) :
    validate_code_ast patterns ⟨.error msg⟩ = .error (.astParseError msg) ∧
    runModel cfg maxStdout patterns ⟨.error msg⟩ extraFiles env =
      (.rejectedByValidation (.astParseError msg),
       ⟨[], false, none, [], none⟩) :=
  ⟨rfl, rfl⟩

/-- C5: Output capping: when the raw captured output exceeds the cap,
the displayed text is the prefix of the raw output up to the cap followed
by the truncation marker stating the original total length, and its length
is the cap plus the marker length; when the raw output is within the cap,
the displayed text is the raw output unchanged; and in every run that
reaches execution, the displayed text is exactly the capping function
applied to the raw output. -/
theorem claim_C5_output_capping (maxStdout : Nat) (raw : List Char) :
    (raw.length > maxStdout →
      capOutput maxStdout raw = raw.take maxStdout ++ truncatedMarker raw.length ∧
      (capOutput maxStdout raw).length =
        maxStdout + (truncatedMarker raw.length).length) ∧
    (raw.length ≤ maxStdout → capOutput maxStdout raw = raw) ∧
    (∀ cfg patterns src extra env rawOut t disp eff,
      runModel cfg maxStdout patterns src extra env =
        (.executed rawOut t disp, eff) →
      disp = capOutput maxStdout rawOut) := by
  refine ⟨?_, ?_, ?_⟩
  · intro h
    have hmin : min maxStdout raw.length = maxStdout :=
      Nat.min_eq_left (Nat.le_of_lt h)
    exact ⟨by simp [capOutput, h], by simp [capOutput, h, hmin]⟩
  · intro h
    simp [capOutput, Nat.not_lt.mpr h]
  · intro cfg patterns src extra env rawOut t disp eff h
    by_cases h1 : (env.dockerOnPath && env.dockerResponds : Bool)
    · by_cases h2 : (env.imagePresentLocally || env.pullSucceeds : Bool)
      · cases hv : validate_code_ast patterns src with
        | error e => simp [runModel, hv] at h
        | ok u => cases ho : env.outcome <;> simp_all [runModel]
      · cases hv : validate_code_ast patterns src with
        | error e => simp [runModel, hv] at h
        | ok u => simp [runModel, hv, h1, h2] at h
    · cases hv : validate_code_ast patterns src with
      | error e => simp [runModel, hv] at h
      | ok u => simp [runModel, hv, h1] at h

/-- Witness for C5: 50000 characters with cap 10000 yield the 10000-char
prefix plus a marker reporting 50000, with the stated display length;
2 characters are passed through unchanged; and a concrete executed run
displays exactly the capping function of its raw output. -/
theorem claim_C5_output_capping_witness :
    capOutput 10000 (List.replicate 50000 'a') =
      (List.replicate 50000 'a').take 10000 ++ truncatedMarker 50000 ∧
    (capOutput 10000 (List.replicate 50000 'a')).length =
      10000 + (truncatedMarker 50000).length ∧
    capOutput 10000 ['h', 'i'] = ['h', 'i'] ∧
    ['h', 'i'] = capOutput 10000 ['h', 'i'] := by
  have h1 := (claim_C5_output_capping 10000 (List.replicate 50000 'a')).1
    (by rw [List.length_replicate]; omega)
  rw [List.length_replicate] at h1
  have h2 := (claim_C5_output_capping 10000 ['h', 'i']).2.1 (by decide)
  have h3 := (claim_C5_output_capping 10000 ['h', 'i']).2.2
    ⟨"img", 30, "512m", "1.0"⟩ [] trivialProgram []
    ⟨true, true, true, true, "/ws", .completed ['h', 'i'] 2⟩
    ['h', 'i'] 2 ['h', 'i']
    (runModel ⟨"img", 30, "512m", "1.0"⟩ 10000 [] trivialProgram []
      ⟨true, true, true, true, "/ws", .completed ['h', 'i'] 2⟩).2 rfl
  exact ⟨h1.1, h1.2, h2, h3⟩

/-- C6 (amended): On a timed-out container run the result carries the
fixed timeout message as raw output, the reported execution time equals
the configured timeout (not the script's own duration), and no command
issued during the run is an explicit container stop/kill/remove — the code
merely lets the supervising call kill the attached client, so daemon-side
termination is not ensured. -/
theorem claim_C6_timeout_reporting (cfg : InterpreterConfig) (maxStdout : Nat)
    (patterns : List String) (src : PySource) (extra : List (String × List Nat))
    (env : RunEnv)
    (hval : validate_code_ast patterns src = .ok ())
    (hpath : env.dockerOnPath = true) (hresp : env.dockerResponds = true)
    (himg : env.imagePresentLocally = true ∨ env.pullSucceeds = true)
    (hout : env.outcome = .timedOut) :
    (runModel cfg maxStdout patterns src extra env).1 =
      .executed timeoutMessage cfg.timeout (capOutput maxStdout timeoutMessage) ∧
    (∀ c ∈ (runModel cfg maxStdout patterns src extra env).2.commands,
      isContainerStopCommand c = false) := by
  have himg2 : (env.imagePresentLocally || env.pullSucceeds) = true := by
    rcases himg with h | h <;> simp [h]
  constructor
  · simp [runModel, hval, hpath, hresp, himg2, hout]
  · intro c hc
    simp [runModel, hval, hpath, hresp, himg2] at hc
    by_cases hipl : env.imagePresentLocally
    · simp [hipl] at hc
      rcases hc with rfl | rfl | rfl <;> rfl
    · simp [hipl] at hc
      rcases hc with rfl | (rfl | rfl) | rfl <;> rfl

/-- Witness for C6: a concrete timed-out run with configured timeout 1
reports the timeout message and execution time 1. -/
theorem claim_C6_timeout_reporting_witness :
    (runModel ⟨"img", 1, "512m", "1.0"⟩ 10000 [] trivialProgram []
        ⟨true, true, true, true, "/ws", .timedOut⟩).1 =
      .executed timeoutMessage 1 (capOutput 10000 timeoutMessage) :=
  (claim_C6_timeout_reporting ⟨"img", 1, "512m", "1.0"⟩ 10000 [] trivialProgram
    [] ⟨true, true, true, true, "/ws", .timedOut⟩ rfl rfl rfl (Or.inl rfl)
    rfl).1

/-- Counterexample for C6 as stated: on a concrete timed-out run the
outcome does report the timeout message with elapsed time equal to the
configured timeout, but the container is not terminated within the call —
no stop/kill/remove command is ever issued, so the claim's "no container
outlives the call" conjunct is false. -/
theorem claim_C6_counterexample :
    (runModel ⟨"img", 1, "512m", "1.0"⟩ 10000 [] trivialProgram []
        ⟨true, true, true, true, "/ws", .timedOut⟩).1 =
      .executed timeoutMessage 1 (capOutput 10000 timeoutMessage) ∧
    containerTerminatedWithinCall ⟨true, true, true, true, "/ws", .timedOut⟩
      (runModel ⟨"img", 1, "512m", "1.0"⟩ 10000 [] trivialProgram []
        ⟨true, true, true, true, "/ws", .timedOut⟩).2 = false :=
  ⟨rfl, rfl⟩

/-- C7: Every run that reaches container invocation launches exactly
the fixed command line — independent of the submitted source and
attachments — containing network disabled, the memory, CPU and pid
ceilings, no-new-privileges, read-only root with the single read-write
workspace bind mount, the workspace as working directory, and the
interpreter invoked directly on the script filename (an argv list, no
shell). -/
theorem claim_C7_isolation_parameters (cfg : InterpreterConfig)
    (maxStdout : Nat) (patterns : List String) (src : PySource)
    (extra : List (String × List Nat)) (env : RunEnv)
    (hval : validate_code_ast patterns src = .ok ())
    (hpath : env.dockerOnPath = true) (hresp : env.dockerResponds = true)
    (himg : env.imagePresentLocally = true ∨ env.pullSucceeds = true) :
    (runModel cfg maxStdout patterns src extra env).2.containerInvocation =
      some (dockerCmd cfg.memory cfg.cpus env.workspace cfg.docker_image) ∧
    dockerCmd cfg.memory cfg.cpus env.workspace cfg.docker_image =
      ["docker", "run", "--rm", "--network", "none", "--memory", cfg.memory,
       "--cpus", cfg.cpus, "--pids-limit", "128", "--security-opt",
       "no-new-privileges", "--read-only", "-v",
       env.workspace ++ ":/workspace:rw", "--workdir", "/workspace",
       cfg.docker_image, "python", "-u", "script.py"] := by
  have himg2 : (env.imagePresentLocally || env.pullSucceeds) = true := by
    rcases himg with h | h <;> simp [h]
  exact ⟨by simp [runModel, hval, hpath, hresp, himg2], rfl⟩

/-- Witness for C7: a concrete run launches the fully spelled-out isolated
command line. -/
theorem claim_C7_isolation_parameters_witness :
    (runModel ⟨"img", 30, "512m", "1.0"⟩ 10000 [] trivialProgram []
        ⟨true, true, true, true, "/ws", .completed [] 0⟩).2.containerInvocation =
      some (dockerCmd "512m" "1.0" "/ws" "img") ∧
    dockerCmd "512m" "1.0" "/ws" "img" =
      ["docker", "run", "--rm", "--network", "none", "--memory", "512m",
       "--cpus", "1.0", "--pids-limit", "128", "--security-opt",
       "no-new-privileges", "--read-only", "-v", "/ws" ++ ":/workspace:rw",
       "--workdir", "/workspace", "img", "python", "-u", "script.py"] :=
  claim_C7_isolation_parameters ⟨"img", 30, "512m", "1.0"⟩ 10000 []
    trivialProgram [] ⟨true, true, true, true, "/ws", .completed [] 0⟩
    rfl rfl rfl (Or.inl rfl)

/-- C8: Attachment names are sanitized to their base name before being
joined to the workspace: the base name never contains a separator, every
attachment path written by a run is the workspace path, one separator, and
the base name of the supplied name — so names with directory separators or
parent components cannot escape the workspace — and e.g. a traversal name
reduces to its final component. -/
theorem claim_C8_attachment_paths (cfg : InterpreterConfig) (maxStdout : Nat)
    (patterns : List String) (src : PySource) (extra : List (String × List Nat))
    (env : RunEnv)
    (hval : validate_code_ast patterns src = .ok ())
    (hpath : env.dockerOnPath = true) (hresp : env.dockerResponds = true)
    (himg : env.imagePresentLocally = true ∨ env.pullSucceeds = true)
    (hws1 : env.workspace ≠ "") (hws2 : env.workspace.data.getLast? ≠ some '/') :
    (∀ fname, ('/' : Char) ∉ (basename fname).data) ∧
    (runModel cfg maxStdout patterns src extra env).2.attachmentPaths =
      extra.map (fun nf => env.workspace ++ "/" ++ basename nf.1) ∧
    basename "../../etc/passwd" = "passwd" := by
  have himg2 : (env.imagePresentLocally || env.pullSucceeds) = true := by
    rcases himg with h | h <;> simp [h]
  refine ⟨basename_no_slash, ?_, by decide⟩
  have hred : (runModel cfg maxStdout patterns src extra env).2.attachmentPaths =
      extra.map (fun nf => attachmentTargetPath env.workspace nf.1) := by
    simp [runModel, hval, hpath, hresp, himg2]
  rw [hred]
  refine List.map_congr_left fun nf _ => ?_
  exact osPathJoin_eq (basename_no_slash nf.1) hws1 hws2

/-- Witness for C8: a concrete run with a traversal-shaped and a
subdirectory-shaped attachment name writes both directly inside the
workspace. -/
theorem claim_C8_attachment_paths_witness :
    (runModel ⟨"img", 30, "512m", "1.0"⟩ 10000 [] trivialProgram
        [("../../etc/passwd", []), ("a/b.txt", [])]
        ⟨true, true, true, true, "/ws", .completed [] 0⟩).2.attachmentPaths =
      [("../../etc/passwd", ([] : List Nat)), ("a/b.txt", [])].map
        (fun nf => "/ws" ++ "/" ++ basename nf.1) ∧
    basename "../../etc/passwd" = "passwd" :=
  have h := claim_C8_attachment_paths ⟨"img", 30, "512m", "1.0"⟩ 10000 []
    trivialProgram [("../../etc/passwd", []), ("a/b.txt", [])]
    ⟨true, true, true, true, "/ws", .completed [] 0⟩ rfl rfl rfl (Or.inl rfl)
    (by decide) (by decide)
  ⟨h.2.1, h.2.2⟩

/-- Counterexample for C3 as stated: for a workspace holding exactly
out.txt and script.py, the artifact enumeration of collect_artifacts
contains the script file, so it is not exactly [out.txt]. -/
theorem claim_C3_counterexample :
    "script.py" ∈ (collect_artifacts "sandbox_runs" "output/run_t" "run_ws"
        ["out.txt", "script.py"] true).1 ∧
    (collect_artifacts "sandbox_runs" "output/run_t" "run_ws"
        ["out.txt", "script.py"] true).1 ≠ ["out.txt"] := by
  decide

/-- C3 (amended): For a run that produced out.txt next to the script,
collect_artifacts returns an artifact list containing out.txt and also
script.py (the script is not excluded from enumeration), a non-null zip
path, and exactly one durable copy: out.txt under the output directory;
in general a path is copied to the durable output root iff it comes from a
workspace file whose base name is not script.py. -/
theorem claim_C3_artifact_enumeration (baseDir outputSubdir workspace : String) :
    collect_artifacts baseDir outputSubdir workspace
        ["out.txt", "script.py"] true =
      (["out.txt", "script.py"],
       some (osPathJoin baseDir ("artifacts_" ++ basename workspace ++ ".zip")),
       [osPathJoin outputSubdir "out.txt"]) ∧
    (∀ outDir files p, p ∈ copy_artifacts_to_output outDir files ↔
      ∃ r ∈ files, basename r ≠ "script.py" ∧ p = osPathJoin outDir r) := by
  constructor
  · rfl
  · intro outDir files p
    simp only [copy_artifacts_to_output, List.mem_filterMap]
    constructor
    · rintro ⟨r, hr, hfr⟩
      by_cases hs : basename r = "script.py"
      · simp [hs] at hfr
      · simp only [hs, if_false, Option.some.injEq] at hfr
        exact ⟨r, hr, hs, hfr.symm⟩
    · rintro ⟨r, hr, hs, rfl⟩
      exact ⟨r, hr, by simp [hs]⟩

/-- Witness for C3 (amended), at concrete directory names. -/
theorem claim_C3_artifact_enumeration_witness :
    collect_artifacts "b" "o" "w" ["out.txt", "script.py"] true =
      (["out.txt", "script.py"],
       some (osPathJoin "b" ("artifacts_" ++ basename "w" ++ ".zip")),
       [osPathJoin "o" "out.txt"]) :=
  (claim_C3_artifact_enumeration "b" "o" "w").1

end ZenSandbox
